import Mathlib

/-!
Shallow embedding of the schema-driven rendering core of the
adaptive-task-manager repository: the schema data model
(`frontend/types/schema.ts`), the dynamic form field renderer
(`frontend/components/DynamicForm.tsx`), the dynamic table column
selection and cell formatter (`DynamicTable.tsx`), the schema-fetching
hook (`frontend/hooks/useSchema.ts`), the optimistic CRUD cache protocol
(`useCRUD.ts`), and the pagination controller
(`frontend/components/Pagination.tsx`).

JavaScript values flowing through records and form state are modelled by
the inductive type `Value`; JS numbers are modelled as rationals plus the
separate special values NaN, Infinity and -Infinity (sufficient for the
integer and decimal arithmetic the code performs; IEEE double rounding
artifacts are outside the model).  Locale-dependent date rendering and JS
number-to-string conversion are taken as oracle parameters.
-/

namespace ATM

/-- Model of a JavaScript value as it appears in records, form draft state
and cell formatting: null (also standing for undefined), booleans, numbers
(rationals, with NaN and the infinities kept separate), and strings. -/
inductive Value where
  | null
  | bool (b : Bool)
  | num (q : ℚ)
  | nan
  | inf
  | negInf
  | str (s : String)
deriving DecidableEq, Repr

/-- JavaScript truthiness of a `Value`: null/undefined, false, 0, NaN and
the empty string are falsy, everything else is truthy. -/
def jsTruthy : Value → Bool
  | .null => false
  | .bool b => b
  | .num q => q != 0
  | .nan => false
  | .inf => true
  | .negInf => true
  | .str s => s != ""

/-- JavaScript `a || b`: returns `a` when truthy, otherwise `b`. -/
def jsOr (a b : Value) : Value := if jsTruthy a then a else b

/-- One `(value, label)` entry of a field's `choices` list
(`FieldChoice` in `frontend/types/schema.ts`). -/
structure FieldChoice where
  value : String
  label : String
deriving DecidableEq, Repr

/-- One field description as returned by the backend schema endpoint
(`FieldSchema` in `frontend/types/schema.ts`).  The `type` tag is an open
string, exactly as in the source. -/
structure FieldSchema where
  name : String
  type : String
  required : Bool := false
  help_text : Option String := none
  max_length : Option Nat := none
  choices : Option (List FieldChoice) := none
deriving DecidableEq, Repr

/-- A model's schema (`ModelSchema` in `frontend/types/schema.ts`). -/
structure ModelSchema where
  model_name : String
  app_label : String := ""
  table_name : String := ""
  fields : List FieldSchema
  verbose_name : String := ""
  verbose_name_plural : String := ""
deriving DecidableEq, Repr

/-- A record: a JS object modelled as an association list from field name
to value.  Insertion order is kept and keys are unique by construction of
the operations below, matching JS object semantics. -/
abbrev RecordV := List (String × Value)

/-- Lookup of `r[k]`; an absent key reads as undefined, modelled `null`. -/
def objGet (r : RecordV) (k : String) : Value :=
  match r.find? (fun kv => kv.1 == k) with
  | some kv => kv.2
  | none => Value.null

/-- Whether the object has the key at all (`k in r`). -/
def hasKey (r : RecordV) (k : String) : Bool :=
  r.any (fun kv => kv.1 == k)

/-- JS object update `{...r, [k]: v}` restricted to the single key `k`:
replaces the value in place when the key exists (JS keeps the original
insertion position), otherwise appends the pair. -/
def objSet (r : RecordV) (k : String) (v : Value) : RecordV :=
  if r.any (fun kv => kv.1 == k) then
    r.map (fun kv => if kv.1 == k then (k, v) else kv)
  else
    r ++ [(k, v)]

/-- JS object spread `{...a, ...b}`: every key of `b` written over `a`. -/
def objMerge (a b : RecordV) : RecordV :=
  b.foldl (fun acc kv => objSet acc kv.1 kv.2) a

/-- An item of the pagination strip: an actual page number or the
ellipsis marker `'...'`. -/
inductive PageItem where
  | page (n : Nat)
  | ellipsis
deriving DecidableEq, Repr

/-- Translation of `getPageNumbers` in
`frontend/components/Pagination.tsx` (lines 25-62).  The JS `for`-loops
accumulating into `pages` are rendered as `List.range` maps: the loop
`for i = a to b` contributes `a, a+1, ..., b` in order. -/
def getPageNumbers (currentPage totalPages : Nat) : List PageItem :=
  if totalPages ≤ 5 then
    (List.range totalPages).map (fun i => .page (i + 1))
  else if currentPage ≤ 3 then
    ((List.range 4).map (fun i => .page (i + 1))) ++ [.ellipsis, .page totalPages]
  else if totalPages - 2 ≤ currentPage then
    [.page 1, .ellipsis] ++ (List.range 4).map (fun i => .page (totalPages - 3 + i))
  else
    [.page 1, .ellipsis] ++ (List.range 3).map (fun i => .page (currentPage - 1 + i))
      ++ [.ellipsis, .page totalPages]

/-- The `Pagination` component's page-number strip (`Pagination.tsx`):
`none` models the early `return null` when `totalPages <= 1`; otherwise
the rendered sequence of page buttons and ellipsis markers. -/
def Pagination (currentPage totalPages : Nat) : Option (List PageItem) :=
  if totalPages ≤ 1 then none
  else some (getPageNumbers currentPage totalPages)

/-- Whitespace skipped by the JS numeric parsing functions (ASCII part). -/
def isJsWhitespace (c : Char) : Bool :=
  c = ' ' || c = '\t' || c = '\n' || c = '\r' || c = '\x0b' || c = '\x0c'

/-- Value of a string of decimal digits. -/
def digitsToNat (ds : List Char) : Nat :=
  ds.foldl (fun acc c => 10 * acc + (c.toNat - '0'.toNat)) 0

/-- Hexadecimal digit test, as accepted by `parseInt` after a `0x` tag. -/
def isHexDigit (c : Char) : Bool :=
  c.isDigit || ('a' ≤ c && c ≤ 'f') || ('A' ≤ c && c ≤ 'F')

/-- Value of one hexadecimal digit. -/
def hexDigitVal (c : Char) : Nat :=
  if c.isDigit then c.toNat - '0'.toNat
  else if 'a' ≤ c && c ≤ 'f' then c.toNat - 'a'.toNat + 10
  else c.toNat - 'A'.toNat + 10

/-- Value of a string of hexadecimal digits. -/
def hexToNat (ds : List Char) : Nat :=
  ds.foldl (fun acc c => 16 * acc + hexDigitVal c) 0

/-- Magnitude part of JS `parseInt(s)` (radix unspecified): a `0x`/`0X`
run of hexadecimal digits, or a run of decimal digits; no digits at all
means NaN (`none`).  Parsing stops at the first unusable character. -/
def parseIntMagnitude (cs : List Char) : Option Nat :=
  match cs with
  | '0' :: 'x' :: rest | '0' :: 'X' :: rest =>
    let ds := rest.takeWhile isHexDigit
    if ds.isEmpty then none else some (hexToNat ds)
  | rest =>
    let ds := rest.takeWhile Char.isDigit
    if ds.isEmpty then none else some (digitsToNat ds)

/-- JS `parseInt(s)` with no radix argument, as used by the integer field
change handler in `DynamicForm.tsx` line 225: leading whitespace and an
optional sign, then a decimal (or `0x`-tagged hexadecimal) digit run;
anything else gives NaN. -/
def jsParseIntV (s : String) : Value :=
  match s.data.dropWhile isJsWhitespace with
  | '-' :: rest =>
    match parseIntMagnitude rest with
    | some n => .num (Rat.divInt (-(n : Int)) 1)
    | none => .nan
  | '+' :: rest =>
    match parseIntMagnitude rest with
    | some n => .num (Rat.divInt (n : Int) 1)
    | none => .nan
  | rest =>
    match parseIntMagnitude rest with
    | some n => .num (Rat.divInt (n : Int) 1)
    | none => .nan

/-- Split a character list into its leading decimal-digit run and the
rest. -/
def takeDigits (cs : List Char) : List Char × List Char :=
  (cs.takeWhile Char.isDigit, cs.dropWhile Char.isDigit)

/-- Optional exponent part of a JS float literal (`e`/`E`, optional sign,
digits); contributes 0 when absent or when the digits are missing, like
`parseFloat` which then simply stops before the `e`. -/
def parseExponent (cs : List Char) : Int :=
  match cs with
  | 'e' :: rest | 'E' :: rest =>
    match rest with
    | '-' :: r2 =>
      let ds := (takeDigits r2).1
      if ds.isEmpty then 0 else -(digitsToNat ds : Int)
    | '+' :: r2 =>
      let ds := (takeDigits r2).1
      if ds.isEmpty then 0 else (digitsToNat ds : Int)
    | r2 =>
      let ds := (takeDigits r2).1
      if ds.isEmpty then 0 else (digitsToNat ds : Int)
  | _ => 0

/-- Magnitude part of JS `parseFloat(s)`: integer digits, optional
fraction, optional exponent; at least one digit is required.  The result
is returned as a numerator/denominator pair of integers (denominator a
power of ten) so that concrete instances reduce inside the kernel. -/
def parseFloatMagnitude (cs : List Char) : Option (Int × Int) :=
  let (ip, rest1) := takeDigits cs
  let (fp, rest2) :=
    match rest1 with
    | '.' :: r => takeDigits r
    | _ => ([], rest1)
  if ip.isEmpty && fp.isEmpty then none
  else
    let mant : Int := ((digitsToNat ip * 10 ^ fp.length + digitsToNat fp : Nat) : Int)
    let e := parseExponent rest2
    some (if 0 ≤ e then (mant * 10 ^ e.toNat, (10 : Int) ^ fp.length)
          else (mant, (10 : Int) ^ fp.length * (10 : Int) ^ (-e).toNat))

/-- The characters of the literal `Infinity` accepted by `parseFloat`. -/
def infinityChars : List Char := ['I', 'n', 'f', 'i', 'n', 'i', 't', 'y']

/-- Whether the remaining input starts with the literal `Infinity`. -/
def startsWithInfinity (cs : List Char) : Bool :=
  infinityChars.isPrefixOf cs

/-- JS `parseFloat(s)`, as used by the decimal field change handler in
`DynamicForm.tsx` line 239: leading whitespace, optional sign, then
either the literal `Infinity` or a decimal literal with optional fraction
and exponent; no digits gives NaN. -/
def jsParseFloatV (s : String) : Value :=
  match s.data.dropWhile isJsWhitespace with
  | '-' :: rest =>
    if startsWithInfinity rest then .negInf
    else
      match parseFloatMagnitude rest with
      | some (n, d) => .num (Rat.divInt (-n) d)
      | none => .nan
  | '+' :: rest =>
    if startsWithInfinity rest then .inf
    else
      match parseFloatMagnitude rest with
      | some (n, d) => .num (Rat.divInt n d)
      | none => .nan
  | rest =>
    if startsWithInfinity rest then .inf
    else
      match parseFloatMagnitude rest with
      | some (n, d) => .num (Rat.divInt n d)
      | none => .nan

/-- A DOM change event as observed by the field change handlers:
`e.target.value` and `e.target.checked`. -/
structure DomEvent where
  value : String
  checked : Bool
deriving DecidableEq, Repr

/-- The visible shape of the input control produced by `renderInput`,
carrying the displayed (already defaulted) value. -/
inductive ControlKind where
  | select (choices : List FieldChoice) (value : Value)
  | textarea (value : Value)
  | checkbox (value : Value)
  | intInput (value : Value)
  | decimalInput (value : Value)
  | dateInput (value : Value)
  | datetimeInput (value : Value)
  | emailInput (value : Value)
  | urlInput (value : Value)
  | textInput (value : Value) (maxLength : Option Nat)
deriving DecidableEq, Repr

/-- A rendered input control: its kind together with its change handler,
the function a DOM change event is fed through before the result is
stored into the form draft state. -/
structure Control where
  kind : ControlKind
  onChange : DomEvent → Value

/-- The type-tag switch of `renderInput` (`DynamicForm.tsx` lines
189-304), reached when the field has no (non-empty) `choices`.  Each arm
records the control kind with its displayed value `value || ...` and the
change handler of the corresponding JSX attribute; `CharField` and any
unrecognized tag fall through to the plain text input. -/
def renderInputSwitch (field : FieldSchema) (value : Value) : Control :=
  match field.type with
  | "TextField" =>
    { kind := .textarea (jsOr value (.str "")), onChange := fun e => .str e.value }
  | "BooleanField" =>
    { kind := .checkbox (jsOr value (.bool false)), onChange := fun e => .bool e.checked }
  | "IntegerField" | "BigIntegerField" | "SmallIntegerField" =>
    { kind := .intInput (jsOr value (.str ""))
      onChange := fun e => jsOr (jsParseIntV e.value) (.str "") }
  | "DecimalField" | "FloatField" =>
    { kind := .decimalInput (jsOr value (.str ""))
      onChange := fun e => jsOr (jsParseFloatV e.value) (.str "") }
  | "DateField" =>
    { kind := .dateInput (jsOr value (.str "")), onChange := fun e => .str e.value }
  | "DateTimeField" =>
    { kind := .datetimeInput (jsOr value (.str "")), onChange := fun e => .str e.value }
  | "EmailField" =>
    { kind := .emailInput (jsOr value (.str "")), onChange := fun e => .str e.value }
  | "URLField" =>
    { kind := .urlInput (jsOr value (.str "")), onChange := fun e => .str e.value }
  | _ =>
    { kind := .textInput (jsOr value (.str "")) field.max_length
      onChange := fun e => .str e.value }

/-- `renderInput` (`DynamicForm.tsx` lines 167-305): a field with a
non-empty `choices` list renders as a selection control populated from
the choices (`value={value || ''}`, `onValueChange` storing the selected
string), before any type dispatch; otherwise the type switch decides. -/
def renderInput (field : FieldSchema) (value : Value) : Control :=
  match field.choices with
  | some cs =>
    if 0 < cs.length then
      { kind := ControlKind.select cs (jsOr value (Value.str ""))
        onChange := fun e => Value.str e.value }
    else renderInputSwitch field value
  | none => renderInputSwitch field value

/-- `DynamicField` (`DynamicForm.tsx` lines 136-162): returns nothing for
the synthetic excluded fields — the `id`-named / auto primary-key field
and the two auto timestamp names — and otherwise exactly one rendered
input control. -/
def DynamicField (field : FieldSchema) (value : Value) : Option Control :=
  if field.name == "id" || field.type == "AutoField" || field.type == "BigAutoField" then
    none
  else if field.name == "created_at" || field.name == "updated_at" then
    none
  else
    some (renderInput field value)

/-- The exclusion predicate `DynamicField` implements, gathered into one
boolean: primary-key (name `id` or an auto type) or auto-timestamp
(name `created_at` or `updated_at`). -/
def isFormExcluded (field : FieldSchema) : Bool :=
  (field.name == "id" || field.type == "AutoField" || field.type == "BigAutoField")
    || (field.name == "created_at" || field.name == "updated_at")

/-- The list of input controls the `DynamicForm` renders for a loaded
schema (`DynamicForm.tsx` lines 101-108): one `DynamicField` per schema
field in order, the excluded ones rendering nothing. -/
def formControls (schema : ModelSchema) (formData : RecordV) : List Control :=
  schema.fields.filterMap (fun f => DynamicField f (objGet formData f.name))

/-- The form draft state at submission time (`DynamicForm.tsx` lines
52-75): starts as the (shallow-copied) `initialData` and accumulates
`handleFieldChange` writes `{...prev, [fieldName]: value}`; `onSubmit`
receives exactly this object. -/
def submittedRecord (initialData : RecordV) (edits : List (String × Value)) : RecordV :=
  edits.foldl (fun r e => objSet r e.1 e.2) initialData

/-- `displayFields` of the `DynamicTable` (`DynamicTable.tsx` lines
94-101): schema fields minus the `id`-named field, the auto types, and
`updated_at` — note `created_at` is not filtered out here. -/
def displayFields (schema : ModelSchema) : List FieldSchema :=
  schema.fields.filter (fun f =>
    f.name != "id" && f.type != "AutoField" && f.type != "BigAutoField"
      && f.name != "updated_at")

/-- The exclusion predicate of `displayFields`, gathered into one
boolean. -/
def isTableExcluded (field : FieldSchema) : Bool :=
  field.name == "id" || field.type == "AutoField" || field.type == "BigAutoField"
    || field.name == "updated_at"

/-- Number of header columns of the desktop table (`DynamicTable.tsx`
lines 171-183): the leading `#` identifier column, one column per display
field, and a trailing `Actions` column when an edit or delete handler is
supplied. -/
def tableHeaderCount (schema : ModelSchema) (hasActions : Bool) : Nat :=
  1 + (displayFields schema).length + (if hasActions then 1 else 0)

/-- Truncation of the default branch of `formatCellValue`: strings longer
than 50 characters are cut to 50 and get an ellipsis suffix. -/
def truncate50 (s : String) : String :=
  if 50 < s.length then s.take 50 ++ "..." else s

/-- JS `Number.prototype.toFixed(2)` on an exact rational: the number
rounded to two decimals (ties away from the floor, i.e. the larger
candidate, per the ECMAScript choice), rendered with exactly two fraction
digits.  Computed over the reduced numerator/denominator so concrete
instances reduce in the kernel. -/
def toFixed2 (q : ℚ) : String :=
  let c : Int := Int.fdiv (2 * (q.num * 100) + (q.den : Int)) (2 * (q.den : Int))
  let m := c.natAbs
  (if c < 0 then "-" else "") ++ toString (m / 100) ++ "." ++
    (if m % 100 < 10 then "0" else "") ++ toString (m % 100)

/-- Whether `typeof value === 'number'` holds: finite numbers, NaN and
the infinities. -/
def isNumberValue : Value → Bool
  | .num _ => true
  | .nan => true
  | .inf => true
  | .negInf => true
  | _ => false

/-- `toFixed(2)` lifted to the number-typed values: NaN and the
infinities render as their own names. -/
def valueToFixed2 : Value → String
  | .num q => toFixed2 q
  | .nan => "NaN"
  | .inf => "Infinity"
  | .negInf => "-Infinity"
  | _ => ""

/-- JS `String(value)` up to a number-formatting oracle `numStr` (exact
decimal rendering of IEEE doubles is outside the model). -/
def jsToString (numStr : ℚ → String) : Value → String
  | .null => "null"
  | .bool b => if b then "true" else "false"
  | .num q => numStr q
  | .nan => "NaN"
  | .inf => "Infinity"
  | .negInf => "-Infinity"
  | .str s => s

/-- `formatCellValue` (`DynamicTable.tsx` lines 239-263).  `locDate` is
the oracle for `new Date(value).toLocaleDateString()` and `numStr` the
oracle for JS number-to-string conversion.  Note the Decimal/Float
branch returns the value itself, unformatted, whenever it is not a
number (`typeof value === 'number' ? value.toFixed(2) : value`). -/
def formatCellValue (locDate : Value → String) (numStr : ℚ → String)
    (value : Value) (field : FieldSchema) : Value :=
  if value = Value.null then Value.str "-"
  else if field.type = "BooleanField" then
    Value.str (if jsTruthy value then "✓" else "✗")
  else if field.type = "DateField" ∨ field.type = "DateTimeField" then
    Value.str (locDate value)
  else if field.type = "DecimalField" ∨ field.type = "FloatField" then
    if isNumberValue value then Value.str (valueToFixed2 value) else value
  else
    Value.str (truncate50 (jsToString numStr value))

/-- Visible state of the `useSchema` hook (`useSchema.ts`): the three
`useState` cells.  The error is modelled by its message. -/
structure SchemaState where
  schema : Option ModelSchema
  loading : Bool
  error : Option String
deriving DecidableEq, Repr

/-- Initial hook state: `useState(null)`, `useState(true)`,
`useState(null)`. -/
def initialSchemaState : SchemaState :=
  { schema := none, loading := true, error := none }

/-- How one `fetchSchema` call resolves: parsed schema on HTTP success,
the response's `statusText` on HTTP non-success, the thrown error's
message on network failure, or the missing-base-URL guard. -/
inductive FetchOutcome where
  | success (m : ModelSchema)
  | httpError (statusText : String)
  | networkError (msg : String)
  | noApiUrl
deriving DecidableEq, Repr

/-- The synchronous head of `fetchSchema` (`useSchema.ts` lines 29-30):
`setLoading(true); setError(null)` before the request is issued. -/
def fetchStart (st : SchemaState) : SchemaState :=
  { st with loading := true, error := none }

/-- The resolution of `fetchSchema` (`useSchema.ts` lines 32-51): success
stores the parsed schema; every failure path stores an error message via
the `catch` arm; `setLoading(false)` runs in the `finally` arm on every
path.  No path writes to `schema` on failure. -/
def fetchFinish (st : SchemaState) : FetchOutcome → SchemaState
  | .success m => { st with schema := some m, loading := false }
  | .httpError t =>
    { st with error := some ("Failed to fetch schema: " ++ t), loading := false }
  | .networkError msg => { st with error := some msg, loading := false }
  | .noApiUrl =>
    { st with error := some "NEXT_PUBLIC_API_URL is not defined", loading := false }

/-- One whole `fetchSchema` run with the given outcome, as triggered on
mount, on model-name change, or by `refetch`. -/
def fetchSchema (st : SchemaState) (o : FetchOutcome) : SchemaState :=
  fetchFinish (fetchStart st) o

/-- The paginated list payload cached per query key
(`PaginatedResponse` in `useCRUD.ts`). -/
structure PaginatedResponse where
  data : List RecordV
  page : Int
  total_pages : Int
  total_count : Int
  has_next : Bool
  has_previous : Bool
deriving DecidableEq, Repr

/-- `onMutate` of the update mutation (`useCRUD.ts` lines 123-142), after
the in-flight cancellation: snapshots the cached page and, when one is
cached, rewrites it by merging the submitted data into every record whose
`id` strictly equals the mutated id.  Returns the new cache content and
the snapshot kept for rollback. -/
def updateOnMutate (cache : Option PaginatedResponse) (id : ℚ) (d : RecordV) :
    Option PaginatedResponse × Option PaginatedResponse :=
  let previousData := cache
  let newCache :=
    match previousData with
    | some prev =>
      some { prev with
        data := prev.data.map (fun item =>
          if objGet item "id" == Value.num id then objMerge item d else item) }
    | none => cache
  (newCache, previousData)

/-- `onMutate` of the delete mutation (`useCRUD.ts` lines 170-187):
snapshots the cached page and, when one is cached, removes every record
whose `id` strictly equals the deleted id and decrements `total_count`
by one — unconditionally, whether or not anything was removed. -/
def deleteOnMutate (cache : Option PaginatedResponse) (id : ℚ) :
    Option PaginatedResponse × Option PaginatedResponse :=
  let previousData := cache
  let newCache :=
    match previousData with
    | some prev =>
      some { prev with
        data := prev.data.filter (fun item => !(objGet item "id" == Value.num id))
        total_count := prev.total_count - 1 }
    | none => cache
  (newCache, previousData)

/-- `onError` of both mutations (`useCRUD.ts` lines 143-148 and 188-193):
when a snapshot was taken, the cache is set back to that whole snapshot;
with no snapshot the cache is left alone. -/
def mutationRollback (cache snapshot : Option PaginatedResponse) :
    Option PaginatedResponse :=
  match snapshot with
  | some prev => some prev
  | none => cache

/-- The Task schema used by the repository's own component tests
(`DynamicTable` test, fields `id`, `title`, `completed`, `priority`,
`created_at`). -/
def taskSchemaM : ModelSchema :=
  { model_name := "Task"
    fields :=
      [ { name := "id", type := "BigAutoField" }
      , { name := "title", type := "CharField", required := true }
      , { name := "completed", type := "BooleanField" }
      , { name := "priority", type := "CharField", required := true }
      , { name := "created_at", type := "DateTimeField" } ]
    verbose_name := "Task"
    verbose_name_plural := "Tasks" }

/-- A fixture integer field, for concrete instances. -/
def estimateField : FieldSchema := { name := "estimated_hours", type := "IntegerField" }

/-- A fixture decimal field, for concrete instances. -/
def priceField : FieldSchema := { name := "price", type := "DecimalField" }

/-- A fixture choice field whose declared type is not a choice type, for
concrete instances. -/
def priorityField : FieldSchema :=
  { name := "priority", type := "IntegerField"
    choices := some [⟨"low", "Low"⟩, ⟨"medium", "Medium"⟩, ⟨"high", "High"⟩] }

/-- A fixture boolean field, for concrete instances. -/
def completedField : FieldSchema := { name := "completed", type := "BooleanField" }

/-- A concrete stand-in for the locale date oracle. -/
def sampleLocDate : Value → String := fun _ => "1/1/2024"

/-- A concrete stand-in for the number-to-string oracle. -/
def sampleNumStr : ℚ → String := fun _ => "0"

/-- An already-empty cached page, for concrete instances. -/
def emptyPage : PaginatedResponse :=
  { data := [], page := 1, total_pages := 0, total_count := 0
    has_next := false, has_previous := false }

/-- C4: for all positive `currentPage` and `totalPages`, the Pagination
Controller renders nothing when `totalPages ≤ 1`; returns all page
numbers `1..totalPages` when `totalPages ≤ 5`; and otherwise returns
`[1,2,3,4,…,totalPages]` when `currentPage ≤ 3`,
`[1,…,totalPages−3,totalPages−2,totalPages−1,totalPages]` when
`currentPage ≥ totalPages−2`, and
`[1,…,currentPage−1,currentPage,currentPage+1,…,totalPages]` in the
middle case. -/
theorem pagination_cases (cp tp : Nat) (hcp : 1 ≤ cp) (htp : 1 ≤ tp) :
    (tp ≤ 1 → Pagination cp tp = none)
    ∧ (2 ≤ tp → tp ≤ 5 →
        Pagination cp tp = some ((List.range tp).map (fun i => .page (i + 1))))
    ∧ (6 ≤ tp → cp ≤ 3 →
        Pagination cp tp =
          some [.page 1, .page 2, .page 3, .page 4, .ellipsis, .page tp])
    ∧ (6 ≤ tp → tp - 2 ≤ cp →
        Pagination cp tp =
          some [.page 1, .ellipsis, .page (tp - 3), .page (tp - 2), .page (tp - 1), .page tp])
    ∧ (6 ≤ tp → 4 ≤ cp → cp ≤ tp - 3 →
        Pagination cp tp =
          some [.page 1, .ellipsis, .page (cp - 1), .page cp, .page (cp + 1), .ellipsis, .page tp]) := by
  clear hcp htp
  refine ⟨fun h => ?_, fun h2 h5 => ?_, fun h6 h3 => ?_, fun h6 hne => ?_, fun h6 h4 hmid => ?_⟩
  · simp [Pagination, h]
  · simp only [Pagination, getPageNumbers]
    rw [if_neg (by omega), if_pos (by omega)]
  · simp only [Pagination, getPageNumbers]
    rw [if_neg (by omega), if_neg (by omega), if_pos h3]
    simp [List.range_succ]
  · simp only [Pagination, getPageNumbers]
    rw [if_neg (by omega), if_neg (by omega), if_neg (by omega), if_pos hne]
    simp [List.range_succ]
    omega
  · simp only [Pagination, getPageNumbers]
    rw [if_neg (by omega), if_neg (by omega), if_neg (by omega), if_neg (by omega)]
    simp [List.range_succ]
    omega

/-- Witness for C4: the middle case at `currentPage = 5`,
`totalPages = 10` yields `[1, …, 4, 5, 6, …, 10]`. -/
theorem pagination_cases_witness :
    Pagination 5 10 =
      some [.page 1, .ellipsis, .page 4, .page 5, .page 6, .ellipsis, .page 10] := by
  have h := (pagination_cases 5 10 (by decide) (by decide)).2.2.2.2
    (by decide) (by decide) (by decide)
  simpa using h

/-- C8: a field whose `choices` list is non-empty always renders as a
selection control populated from the choices, regardless of its declared
type; the type-based dispatch is reached only when `choices` is absent or
empty. -/
theorem renderInput_choices_first (f : FieldSchema) (v : Value) :
    (∀ cs, f.choices = some cs → cs ≠ [] →
      renderInput f v =
        { kind := ControlKind.select cs (jsOr v (Value.str ""))
          onChange := fun e => Value.str e.value })
    ∧ (f.choices = none → renderInput f v = renderInputSwitch f v)
    ∧ (f.choices = some [] → renderInput f v = renderInputSwitch f v) := by
  refine ⟨fun cs hcs hne => ?_, fun h => ?_, fun h => ?_⟩
  · simp [renderInput, hcs, List.length_pos.mpr hne]
  · simp [renderInput, h]
  · simp [renderInput, h]

/-- Witness for C8: the fixture choice field, typed `IntegerField`,
still renders as the selection control over its three choices. -/
theorem renderInput_choices_first_witness :
    renderInput priorityField Value.null =
      { kind := ControlKind.select
          [⟨"low", "Low"⟩, ⟨"medium", "Medium"⟩, ⟨"high", "High"⟩]
          (jsOr Value.null (Value.str ""))
        onChange := fun e => Value.str e.value } :=
  (renderInput_choices_first priorityField Value.null).1
    [⟨"low", "Low"⟩, ⟨"medium", "Medium"⟩, ⟨"high", "High"⟩] rfl (by decide)

/-- C7: on an integer or decimal field (with no choices), a raw input
string that does not parse as a number resolves the stored draft value to
the empty string; the handler is total and never stores NaN. -/
theorem numeric_parse_failure_empty (f : FieldSchema) (v : Value) (s : String) (c : Bool)
    (hc : f.choices = none ∨ f.choices = some []) :
    ((f.type = "IntegerField" ∨ f.type = "BigIntegerField" ∨ f.type = "SmallIntegerField") →
      jsParseIntV s = Value.nan →
      (renderInput f v).onChange ⟨s, c⟩ = Value.str "")
    ∧ ((f.type = "DecimalField" ∨ f.type = "FloatField") →
      jsParseFloatV s = Value.nan →
      (renderInput f v).onChange ⟨s, c⟩ = Value.str "") := by
  have hr : renderInput f v = renderInputSwitch f v := by
    rcases hc with h | h <;> simp [renderInput, h]
  rw [hr]
  constructor
  · rintro (ht | ht | ht) hp <;> simp [renderInputSwitch, ht, hp, jsOr, jsTruthy]
  · rintro (ht | ht) hp <;> simp [renderInputSwitch, ht, hp, jsOr, jsTruthy]

/-- Witness for C7: typing `abc` into the fixture integer field stores
the empty string. -/
theorem numeric_parse_failure_empty_witness :
    (renderInput estimateField Value.null).onChange ⟨"abc", false⟩ = Value.str "" :=
  (numeric_parse_failure_empty estimateField Value.null "abc" false
    (Or.inl rfl)).1 (Or.inl rfl) (by decide)

/-- C9: on an integer or decimal field (with no choices), an input string
that parses to the number 0 is coalesced to the empty string by the
falsy-coalescing fallback, and the draft value 0 is unreachable through
the handler altogether. -/
theorem numeric_zero_coalesced (f : FieldSchema) (v : Value) (s : String) (c : Bool)
    (hc : f.choices = none ∨ f.choices = some []) :
    ((f.type = "IntegerField" ∨ f.type = "BigIntegerField" ∨ f.type = "SmallIntegerField") →
      (jsParseIntV s = Value.num 0 →
        (renderInput f v).onChange ⟨s, c⟩ = Value.str "")
      ∧ (renderInput f v).onChange ⟨s, c⟩ ≠ Value.num 0)
    ∧ ((f.type = "DecimalField" ∨ f.type = "FloatField") →
      (jsParseFloatV s = Value.num 0 →
        (renderInput f v).onChange ⟨s, c⟩ = Value.str "")
      ∧ (renderInput f v).onChange ⟨s, c⟩ ≠ Value.num 0) := by
  have hr : renderInput f v = renderInputSwitch f v := by
    rcases hc with h | h <;> simp [renderInput, h]
  rw [hr]
  have hOr : ∀ w : Value, jsOr w (Value.str "") = Value.num 0 → w = Value.num 0 ∧ jsTruthy w := by
    intro w hw
    by_cases h : jsTruthy w
    · rw [jsOr, if_pos h] at hw
      exact ⟨hw, h⟩
    · rw [jsOr, if_neg h] at hw
      exact absurd hw (by simp)
  constructor
  · rintro (ht | ht | ht) <;>
    · constructor
      · intro hp
        simp [renderInputSwitch, ht, hp, jsOr, jsTruthy]
      · intro hcontra
        simp only [renderInputSwitch, ht] at hcontra
        rcases hOr _ hcontra with ⟨hw, htr⟩
        rw [hw] at htr
        simp [jsTruthy] at htr
  · rintro (ht | ht) <;>
    · constructor
      · intro hp
        simp [renderInputSwitch, ht, hp, jsOr, jsTruthy]
      · intro hcontra
        simp only [renderInputSwitch, ht] at hcontra
        rcases hOr _ hcontra with ⟨hw, htr⟩
        rw [hw] at htr
        simp [jsTruthy] at htr

/-- Witness for C9: typing `0` into the fixture integer field stores the
empty string, not the number 0. -/
theorem numeric_zero_coalesced_witness :
    (renderInput estimateField Value.null).onChange ⟨"0", false⟩ = Value.str "" :=
  ((numeric_zero_coalesced estimateField Value.null "0" false
    (Or.inl rfl)).1 (Or.inl rfl)).1 (by decide)


/-- Helper: `DynamicField` yields a control exactly when the field is not
form-excluded. -/
theorem dynamicField_isSome (f : FieldSchema) (v : Value) :
    (DynamicField f v).isSome = !isFormExcluded f := by
  by_cases h1 : (f.name == "id" || f.type == "AutoField" || f.type == "BigAutoField") = true <;>
    by_cases h2 : (f.name == "created_at" || f.name == "updated_at") = true <;>
      simp [DynamicField, isFormExcluded, h1, h2]

/-- Helper: the two complementary counts of a predicate add up to the
length. -/
theorem countP_not_add {α : Type} (l : List α) (p : α → Bool) :
    l.countP (fun a => !p a) + l.countP p = l.length := by
  induction l with
  | nil => rfl
  | cons a t ih =>
    cases hpa : p a <;> simp [List.countP_cons, hpa] <;> omega

/-- Helper: length of a `filterMap` whose success is the negation of a
predicate. -/
theorem length_filterMap_countP {α β : Type} (l : List α) (g : α → Option β)
    (p : α → Bool) (h : ∀ a, (g a).isSome = !p a) :
    (l.filterMap g).length = l.countP (fun a => !p a) := by
  induction l with
  | nil => rfl
  | cons a t ih =>
    rw [List.countP_cons]
    cases hg : g a with
    | some b =>
      rw [List.filterMap_cons_some hg]
      have hpa : (!p a) = true := by rw [← h a, hg]; rfl
      simp [hpa, ih]
    | none =>
      rw [List.filterMap_cons_none hg]
      have hpa : (!p a) = false := by rw [← h a, hg]; rfl
      simp [hpa, ih]

/-- Helper: the `displayFields` filter predicate is the negation of
`isTableExcluded`. -/
theorem displayFields_pred (f : FieldSchema) :
    (f.name != "id" && f.type != "AutoField" && f.type != "BigAutoField"
      && f.name != "updated_at") = !isTableExcluded f := by
  simp [isTableExcluded, Bool.not_or, bne, Bool.and_assoc]

/-- C1 (amended): the Dynamic Form renders exactly `N − K` input
controls, where `K` counts the synthetic excluded fields (primary-key and
auto-timestamp); the Dynamic Table keeps its columns in schema order, but
its exclusion set omits `created_at`, so it has `N − K' + 1` header
columns (plus one with a handler) where `K'` counts only the `id`-named,
auto-typed and `updated_at` fields. -/
theorem dynamic_render_counts (s : ModelSchema) (d : RecordV) (hasActions : Bool) :
    (formControls s d).length = s.fields.length - s.fields.countP isFormExcluded
    ∧ tableHeaderCount s hasActions
        = (s.fields.length - s.fields.countP isTableExcluded) + 1
            + (if hasActions then 1 else 0)
    ∧ (displayFields s).Sublist s.fields := by
  refine ⟨?_, ?_, List.filter_sublist _⟩
  · have h1 := length_filterMap_countP s.fields
      (fun f => DynamicField f (objGet d f.name)) isFormExcluded
      (fun f => dynamicField_isSome f _)
    have h2 := countP_not_add s.fields isFormExcluded
    unfold formControls
    omega
  · have hc : s.fields.countP (fun f =>
        f.name != "id" && f.type != "AutoField" && f.type != "BigAutoField"
          && f.name != "updated_at")
        = s.fields.countP (fun f => !isTableExcluded f) :=
      List.countP_congr (fun f _ => by rw [displayFields_pred])
    have h2 := countP_not_add s.fields isTableExcluded
    have hlen : (displayFields s).length
        = s.fields.length - s.fields.countP isTableExcluded := by
      unfold displayFields
      rw [← List.countP_eq_length_filter, hc]
      omega
    unfold tableHeaderCount
    rw [hlen]
    omega

/-- Counterexample for C1: on the Task schema used by the repository's
own tests (`id` auto, `title`, `completed`, `priority`, `created_at`),
the form renders 3 controls (`N − K = 5 − 2`), but the table has 5 header
columns, not `N − K + 1 = 4`: its column set keeps `created_at`. -/
theorem table_column_set_differs_from_form :
    (formControls taskSchemaM []).length = 3
    ∧ taskSchemaM.fields.length = 5
    ∧ taskSchemaM.fields.countP isFormExcluded = 2
    ∧ tableHeaderCount taskSchemaM false = 5
    ∧ tableHeaderCount taskSchemaM false ≠ 5 - 2 + 1 := by
  refine ⟨?_, by decide, by decide, by decide, by decide⟩
  rfl

/-- Helper: `List.any` only depends on the pointwise values of its
predicate. -/
theorem any_ext {α : Type} (l : List α) (p q : α → Bool)
    (h : ∀ a ∈ l, p a = q a) : l.any p = l.any q := by
  induction l with
  | nil => rfl
  | cons a t ih =>
    simp only [List.any_cons, h a (List.mem_cons_self a t)]
    rw [ih (fun x hx => h x (List.mem_cons_of_mem a hx))]

/-- Helper: writing a different key leaves `hasKey` unchanged. -/
theorem hasKey_objSet_ne (r : RecordV) (kw k : String) (v : Value)
    (h : kw ≠ k) : hasKey (objSet r kw v) k = hasKey r k := by
  unfold objSet hasKey
  by_cases hc : r.any (fun kv => kv.1 == kw)
  · rw [if_pos hc, List.any_map]
    apply any_ext
    intro kv _
    by_cases hkv : (kv.1 == kw) = true
    · have : kv.1 = kw := by simpa using hkv
      simp [Function.comp, hkv, this]
    · simp [Function.comp, hkv]
  · rw [if_neg hc, List.any_append]
    simp [h]

/-- Helper: a run of field edits touching none of the given key leaves
that key's presence in the draft unchanged. -/
theorem submittedRecord_hasKey_of_ne (init : RecordV) (edits : List (String × Value))
    (k : String) (h : ∀ e ∈ edits, e.1 ≠ k) :
    hasKey (submittedRecord init edits) k = hasKey init k := by
  induction edits generalizing init with
  | nil => rfl
  | cons e t ih =>
    have hstep : submittedRecord init (e :: t) = submittedRecord (objSet init e.1 e.2) t := rfl
    rw [hstep, ih _ (fun x hx => h x (List.mem_cons_of_mem e hx)),
      hasKey_objSet_ne _ _ _ _ (h e (List.mem_cons_self e t))]

/-- C2 (amended): the record the Dynamic Form passes to `onSubmit` is the
initial data plus the field edits; edits made through rendered controls
can never introduce one of the synthetic excluded keys, because no
control is rendered for those fields — so an excluded key is present in
the submitted record exactly when it was already present in
`initialData`. -/
theorem form_edits_preserve_excluded_keys (schema : ModelSchema) (init : RecordV)
    (edits : List (String × Value)) (k : String)
    (hk : k = "id" ∨ k = "created_at" ∨ k = "updated_at")
    (he : ∀ e ∈ edits, ∃ f, f ∈ schema.fields
      ∧ (DynamicField f Value.null).isSome ∧ e.1 = f.name) :
    hasKey (submittedRecord init edits) k = hasKey init k := by
  apply submittedRecord_hasKey_of_ne
  intro e hmem
  obtain ⟨f, _, hsome, hname⟩ := he e hmem
  rw [dynamicField_isSome] at hsome
  have hex : isFormExcluded f = false := by
    cases hfe : isFormExcluded f
    · rfl
    · rw [hfe] at hsome; simp at hsome
  simp only [isFormExcluded, Bool.or_eq_false_iff, beq_eq_false_iff_ne] at hex
  rw [hname]
  rcases hk with hk | hk | hk <;> rw [hk] <;> tauto

/-- Witness for C2 (amended): editing `title` on a draft seeded with an
`id` leaves the `id` key exactly as it was in the initial data. -/
theorem form_edits_preserve_excluded_keys_witness :
    hasKey (submittedRecord [("id", Value.num 1)] [("title", Value.str "B")]) "id"
      = hasKey [("id", Value.num 1)] "id" := by
  apply form_edits_preserve_excluded_keys taskSchemaM
  · exact Or.inl rfl
  · intro e hmem
    have he : e = ("title", Value.str "B") := by simpa using hmem
    subst he
    exact ⟨{ name := "title", type := "CharField", required := true },
      by decide, by decide, rfl⟩

/-- Counterexample for C2: with the editing flow of the Tasks page the
form's `initialData` is the whole task record, so the submitted record
does include the primary-key and timestamp fields it carried — here a
draft seeded with `id` and `created_at` is submitted, after one `title`
edit, still holding both keys. -/
theorem form_submits_initial_excluded_fields :
    hasKey (submittedRecord
      [("id", Value.num 1), ("title", Value.str "A"),
        ("created_at", Value.str "2024-01-01T10:00:00Z")]
      [("title", Value.str "B")]) "id" = true
    ∧ hasKey (submittedRecord
      [("id", Value.num 1), ("title", Value.str "A"),
        ("created_at", Value.str "2024-01-01T10:00:00Z")]
      [("title", Value.str "B")]) "created_at" = true := by
  constructor <;> rfl

/-- C3: with a cached page present, the optimistic step of `update`
rewrites the cache synchronously — merging the submitted data into every
record whose id strictly equals the mutated id — and the optimistic step
of `remove` filters the matching record out and decrements `total_count`
by one; in both cases the snapshot taken first is the whole previous
page, and the error rollback restores exactly that snapshot. -/
theorem optimistic_mutation_protocol (prev : PaginatedResponse) (id : ℚ) (d : RecordV) :
    (updateOnMutate (some prev) id d).1
        = some { prev with data := prev.data.map (fun item =>
            if objGet item "id" == Value.num id then objMerge item d else item) }
    ∧ (updateOnMutate (some prev) id d).2 = some prev
    ∧ mutationRollback (updateOnMutate (some prev) id d).1
        (updateOnMutate (some prev) id d).2 = some prev
    ∧ (deleteOnMutate (some prev) id).1
        = some { prev with
            data := prev.data.filter (fun item => !(objGet item "id" == Value.num id))
            total_count := prev.total_count - 1 }
    ∧ (deleteOnMutate (some prev) id).2 = some prev
    ∧ mutationRollback (deleteOnMutate (some prev) id).1
        (deleteOnMutate (some prev) id).2 = some prev :=
  ⟨rfl, rfl, rfl, rfl, rfl, rfl⟩

/-- C10: when no cached record's id matches, the optimistic step of
`remove` leaves the cached data untouched but still decrements
`total_count` by one. -/
theorem delete_decrements_total_count_without_match (prev : PaginatedResponse) (id : ℚ)
    (h : ∀ r ∈ prev.data, objGet r "id" ≠ Value.num id) :
    (deleteOnMutate (some prev) id).1
      = some { prev with total_count := prev.total_count - 1 } := by
  have hf : prev.data.filter (fun item => !(objGet item "id" == Value.num id))
      = prev.data := by
    apply List.filter_eq_self.mpr
    intro a ha
    simpa using h a ha
  simp [deleteOnMutate, hf]

/-- Witness for C10: removing id 1 from an empty cached page with
`total_count = 0` drives the cached `total_count` to −1. -/
theorem delete_decrements_total_count_without_match_witness :
    (deleteOnMutate (some emptyPage) 1).1 = some { emptyPage with total_count := -1 } := by
  have h := delete_decrements_total_count_without_match emptyPage 1 (by simp [emptyPage])
  rw [h]
  decide

/-- C5 (amended): the cell formatter returns the fixed placeholder for
null/undefined; one of two fixed glyphs for boolean fields; the
locale-formatted date string for date and date-time fields; for
decimal/float fields, the fixed two-decimal string when the value is a
number and the value unchanged otherwise; and for all other types the
string value truncated to 50 characters with an ellipsis suffix when
longer. -/
theorem formatCellValue_branches (lo : Value → String) (ns : ℚ → String)
    (f : FieldSchema) (v : Value) :
    formatCellValue lo ns Value.null f = Value.str "-"
    ∧ (v ≠ Value.null → f.type = "BooleanField" →
        formatCellValue lo ns v f = Value.str (if jsTruthy v then "✓" else "✗"))
    ∧ (v ≠ Value.null → (f.type = "DateField" ∨ f.type = "DateTimeField") →
        formatCellValue lo ns v f = Value.str (lo v))
    ∧ (v ≠ Value.null → (f.type = "DecimalField" ∨ f.type = "FloatField") →
        (∀ q, v = Value.num q → formatCellValue lo ns v f = Value.str (toFixed2 q))
        ∧ (isNumberValue v = false → formatCellValue lo ns v f = v))
    ∧ (v ≠ Value.null →
        f.type ≠ "BooleanField" → f.type ≠ "DateField" → f.type ≠ "DateTimeField" →
        f.type ≠ "DecimalField" → f.type ≠ "FloatField" →
        formatCellValue lo ns v f = Value.str (truncate50 (jsToString ns v))) := by
  refine ⟨by simp [formatCellValue], fun hv ht => ?_, fun hv ht => ?_,
    fun hv ht => ⟨fun q hq => ?_, fun hn => ?_⟩, fun hv h1 h2 h3 h4 h5 => ?_⟩
  · simp [formatCellValue, hv, ht]
  · rcases ht with ht | ht <;> simp [formatCellValue, hv, ht]
  · subst hq
    rcases ht with ht | ht <;>
      simp [formatCellValue, hv, ht, isNumberValue, valueToFixed2]
  · rcases ht with ht | ht <;> simp [formatCellValue, hv, ht, hn]
  · simp [formatCellValue, hv, h1, h2, h3, h4, h5]

/-- Witness for C5 (amended): a true boolean cell renders as the check
glyph. -/
theorem formatCellValue_branches_witness :
    formatCellValue sampleLocDate sampleNumStr (Value.bool true) completedField
      = Value.str "✓" := by
  have h := (formatCellValue_branches sampleLocDate sampleNumStr
    completedField (Value.bool true)).2.1 (by decide) rfl
  simpa [jsTruthy] using h

/-- Counterexample for C5: on a decimal field whose value arrives as the
string `"12.5"` (as string-serialized decimals do), the formatter
returns the value unchanged — not the fixed two-decimal string `"12.50"`
that the number 12.5 would render as. -/
theorem decimal_string_value_not_two_decimal :
    formatCellValue sampleLocDate sampleNumStr (Value.str "12.5") priceField
      = Value.str "12.5"
    ∧ toFixed2 (Rat.divInt 25 2) = "12.50"
    ∧ Value.str "12.5" ≠ Value.str "12.50" := by
  refine ⟨by decide, by decide, by decide⟩

/-- C6 (amended): every fetch performed by the Schema Fetcher starts by
setting `loading = true` and clearing the prior error; on success it
stores the parsed schema with `loading = false`; on HTTP non-success,
network failure, or missing base URL it stores a descriptive error
message, sets `loading = false`, and leaves the `schema` cell unchanged
(hence still null when no earlier fetch had succeeded). -/
theorem useSchema_fetch_transitions (st : SchemaState) (o : FetchOutcome) :
    (fetchStart st).loading = true
    ∧ (fetchStart st).error = none
    ∧ (fetchStart st).schema = st.schema
    ∧ (∀ m, o = .success m →
        fetchSchema st o = { schema := some m, loading := false, error := none })
    ∧ (∀ t, o = .httpError t →
        fetchSchema st o = { schema := st.schema, loading := false
                             error := some ("Failed to fetch schema: " ++ t) })
    ∧ (∀ msg, o = .networkError msg →
        fetchSchema st o = { schema := st.schema, loading := false, error := some msg })
    ∧ (o = .noApiUrl →
        fetchSchema st o = { schema := st.schema, loading := false
                             error := some "NEXT_PUBLIC_API_URL is not defined" }) := by
  refine ⟨rfl, rfl, rfl, fun m hm => ?_, fun t ht => ?_, fun msg hmsg => ?_, fun hn => ?_⟩
  · subst hm; rfl
  · subst ht; rfl
  · subst hmsg; rfl
  · subst hn; rfl

/-- Witness for C6 (amended): a failing first fetch from the initial
state stores the HTTP error message and leaves the schema null. -/
theorem useSchema_fetch_transitions_witness :
    fetchSchema initialSchemaState (.httpError "Not Found")
      = { schema := none, loading := false
          error := some "Failed to fetch schema: Not Found" } := by
  have h := (useSchema_fetch_transitions initialSchemaState
    (.httpError "Not Found")).2.2.2.2.1 "Not Found" rfl
  simpa [initialSchemaState] using h

/-- Counterexample for C6: after a successful fetch of the Task schema, a
failing refetch stores the error but keeps the stale schema — it does not
leave `schema = null` as claimed. -/
theorem useSchema_error_keeps_stale_schema :
    (fetchSchema (fetchSchema initialSchemaState (.success taskSchemaM))
        (.httpError "Internal Server Error")).schema = some taskSchemaM
    ∧ (fetchSchema (fetchSchema initialSchemaState (.success taskSchemaM))
        (.httpError "Internal Server Error")).schema ≠ none
    ∧ (fetchSchema (fetchSchema initialSchemaState (.success taskSchemaM))
        (.httpError "Internal Server Error")).error
      = some "Failed to fetch schema: Internal Server Error" := by
  refine ⟨rfl, by decide, rfl⟩

end ATM
